import Mathlib

/-!
Verification of the caching and regeneration-orchestration core of the
canifuckingdownwindtoday repository, shallowly embedded in Lean 4.

The embedding follows `src/app/cache/manager.py`, `src/app/orchestrator.py`,
`src/app/ai/llm_client.py` and `src/app/weather/models.py`.  Wall-clock time
is modelled as an integer number of seconds passed explicitly to every
operation that calls `datetime.now` in Python (all `now` calls inside one
operation are given the same value).  Python `None` becomes `Option.none`,
dictionaries keyed by the two fixed modes become two-field structures, and
per-persona dictionaries become association lists.  The two external
collaborators, the sensor feed and the text generator, are modelled as an
explicit environment record whose fields give the outcome of each call.
-/

/-- The two riding modes of the app, the keys "sup" and "parawing" of the
rating dictionaries built in `AppOrchestrator._refresh_sensor`. -/
inductive Mode where
  | sup : Mode
  | parawing : Mode
deriving DecidableEq, Repr

/-- A rating set, the Python dictionary with exactly the keys "sup" and
"parawing" mapped to integer ratings (spec name RatingSet).  Equality of two
`RatingSet`s is exactly Python dict equality of the two-key dictionaries. -/
structure RatingSet where
  sup : Int
  parawing : Int
deriving DecidableEq, Repr

/-- Shallow embedding of `SensorReading` from `src/app/weather/models.py`.
Timestamps are integer seconds.  Float payload fields are carried as
integers: no verified claim computes with them, they are only stored and
passed through. -/
structure SensorReading where
  wind_speed_kts : Int
  wind_gust_kts : Int
  wind_lull_kts : Int
  wind_direction : String
  wind_degrees : Int
  air_temp_f : Int
  timestamp_utc : Int
  spot_name : String
deriving DecidableEq, Repr

/-- `SensorReading.is_stale` from `src/app/weather/models.py`: the reading is
stale when its age exceeds the threshold (strict comparison). -/
def SensorReading.is_stale (r : SensorReading) (threshold_seconds : Int) (now : Int) : Bool :=
  now - r.timestamp_utc > threshold_seconds

/-- A per-persona variation map: the Python dictionary from persona id to the
ordered list of generated response strings, as an association list. -/
abbrev PersonaMap := List (String × List String)

/-- Dictionary lookup `m.get(key, ...)` on a persona map; returns the value of
the first matching key, `none` when the key is absent. -/
def lookupP : PersonaMap → String → Option (List String)
  | [], _ => none
  | (k, v) :: rest, key => if k = key then some v else lookupP rest key

/-- The two-mode variations dictionary, Python
`variations["sup"] / variations["parawing"]`. -/
structure ModeMap where
  sup : PersonaMap
  parawing : PersonaMap
deriving DecidableEq, Repr

/-- Index a `ModeMap` by mode. -/
def ModeMap.get (m : ModeMap) : Mode → PersonaMap
  | Mode.sup => m.sup
  | Mode.parawing => m.parawing

/-- The sensor cache entry stored by `CacheManager.set_sensor`
(`src/app/cache/manager.py`).  The `reading` field is optional because the
legacy `set_cache` path stores `None` there and `get_initial_data` tests it
for truthiness. -/
structure SensorCacheEntry where
  reading : Option SensorReading
  ratings : RatingSet
  fetched_at : Int
deriving DecidableEq, Repr

/-- The variations cache entry stored by `CacheManager.set_variations`. -/
structure VariationsCacheEntry where
  rating_snapshot : RatingSet
  variations : ModeMap
  generated_at : Int
deriving DecidableEq, Repr

/-- State of `CacheManager` (`src/app/cache/manager.py`): the split sensor
and variations caches, the offline flag, the last known reading, and the
offline variation pool (`_offline_variations`, which Python creates lazily;
`none` models the attribute being absent or `None`). -/
structure CacheManager where
  sensor_ttl_seconds : Int
  variations_ttl_minutes : Int
  sensorCache : Option SensorCacheEntry
  variationsCache : Option VariationsCacheEntry
  isOffline : Bool
  lastKnownReading : Option SensorReading
  offlineVariations : Option ModeMap
deriving DecidableEq, Repr

/-- `CacheManager.set_sensor`: store reading, ratings and the fetch time,
clear the offline flag, record the reading as last known. -/
def CacheManager.set_sensor (c : CacheManager) (reading : SensorReading)
    (ratings : RatingSet) (now : Int) : CacheManager :=
  { c with
    sensorCache := some { reading := some reading, ratings := ratings, fetched_at := now }
    isOffline := false
    lastKnownReading := some reading }

/-- `CacheManager.is_sensor_stale`: stale when empty or when the entry's age
strictly exceeds the sensor TTL.  (The Python guard for a missing
`fetched_at` key is unreachable here: every stored entry carries one.) -/
def CacheManager.is_sensor_stale (c : CacheManager) (now : Int) : Bool :=
  match c.sensorCache with
  | none => true
  | some e => now - e.fetched_at > c.sensor_ttl_seconds

/-- `CacheManager.get_sensor`: the entry if fresh, else `None`. -/
def CacheManager.get_sensor (c : CacheManager) (now : Int) : Option SensorCacheEntry :=
  if c.is_sensor_stale now then none else c.sensorCache

/-- `CacheManager.get_ratings`: ratings of the sensor cache entry, ignoring
staleness. -/
def CacheManager.get_ratings (c : CacheManager) : Option RatingSet :=
  c.sensorCache.map (fun e => e.ratings)

/-- `CacheManager.set_variations` (the two-argument form in
`src/app/cache/manager.py`): replace the variations entry wholesale. -/
def CacheManager.set_variations (c : CacheManager) (rating_snapshot : RatingSet)
    (variations : ModeMap) (now : Int) : CacheManager :=
  { c with
    variationsCache := some
      { rating_snapshot := rating_snapshot, variations := variations, generated_at := now } }

/-- `CacheManager.get_variations`: the list for a mode/persona pair, or empty. -/
def CacheManager.get_variations (c : CacheManager) (mode : Mode) (persona_id : String) :
    List String :=
  match c.variationsCache with
  | none => []
  | some e => (lookupP (e.variations.get mode) persona_id).getD []

/-- `CacheManager.get_all_variations`: the raw variations cache. -/
def CacheManager.get_all_variations (c : CacheManager) : Option VariationsCacheEntry :=
  c.variationsCache

/-- `CacheManager.is_variations_stale`: time-based staleness only, with the
strict comparison `age > timedelta(minutes=ttl)` in seconds. -/
def CacheManager.is_variations_stale (c : CacheManager) (now : Int) : Bool :=
  match c.variationsCache with
  | none => true
  | some e => now - e.generated_at > 60 * c.variations_ttl_minutes

/-- `CacheManager.should_regenerate_variations`: regenerate when the entry is
absent, time-stale, or its rating snapshot differs from the current ratings
(whole-dictionary inequality). -/
def CacheManager.should_regenerate_variations (c : CacheManager) (current_ratings : RatingSet)
    (now : Int) : Bool :=
  match c.variationsCache with
  | none => true
  | some e =>
    if c.is_variations_stale now then true
    else !(decide (e.rating_snapshot = current_ratings))

/-- `CacheManager.set_offline`: set the flag; update last known only when a
reading is supplied. -/
def CacheManager.set_offline (c : CacheManager) (last_known_reading : Option SensorReading) :
    CacheManager :=
  { c with
    isOffline := true
    lastKnownReading :=
      match last_known_reading with
      | none => c.lastKnownReading
      | some r => some r }

/-- `CacheManager.is_offline`. -/
def CacheManager.is_offline (c : CacheManager) : Bool := c.isOffline

/-- `CacheManager.get_last_known_reading`. -/
def CacheManager.get_last_known_reading (c : CacheManager) : Option SensorReading :=
  c.lastKnownReading

/-- `CacheManager.set_offline_variations`. -/
def CacheManager.set_offline_variations (c : CacheManager) (variations : ModeMap) :
    CacheManager :=
  { c with offlineVariations := some variations }

/-- `CacheManager.get_offline_variations`: empty when the pool is absent. -/
def CacheManager.get_offline_variations (c : CacheManager) (mode : Mode)
    (persona_id : String) : List String :=
  match c.offlineVariations with
  | none => []
  | some m => (lookupP (m.get mode) persona_id).getD []

/-- `CacheManager.clear`: reset the two caches and the offline flag; the last
known reading and the offline variation pool are not touched. -/
def CacheManager.clear (c : CacheManager) : CacheManager :=
  { c with sensorCache := none, variationsCache := none, isOffline := false }

/-- Modelled from the spec: the persona roster (`app/ai/personas.py`, imported
by the orchestrator and the text-generator client but not present in the
source tree).  The concrete ids appear in the repository's tests; no verified
claim depends on the exact roster, only on iterating over it. -/
def PERSONAS : List String := ["drill_sergeant", "disappointed_dad"]

/-- Merge of two persona maps, keeping every persona of the old map that the
new payload does not mention and taking the new payload's list otherwise. -/
def mergePersonaMap (old new : PersonaMap) : PersonaMap :=
  new ++ old.filter (fun kv => (lookupP new kv.1).isNone)

/-- Modelled from the spec: the merge-capable
`setVariations(ratingSnapshot, variations, merge=true)` of section 4.2.  The
orchestrator calls `self.cache.set_variations(..., merge=True)` and the tests
mock it, but the merge-capable method body is not in the source tree's
`manager.py`.  Per the spec it combines the new per-persona lists with any
existing entry's lists instead of discarding them; with no existing entry it
behaves like a plain replace. -/
def CacheManager.set_variations_merge (c : CacheManager) (rating_snapshot : RatingSet)
    (variations : ModeMap) (now : Int) : CacheManager :=
  match c.variationsCache with
  | none => c.set_variations rating_snapshot variations now
  | some e =>
    { c with
      variationsCache := some
        { rating_snapshot := rating_snapshot
          variations :=
            { sup := mergePersonaMap e.variations.sup variations.sup
              parawing := mergePersonaMap e.variations.parawing variations.parawing }
          generated_at := now } }

/-- Modelled from the spec: `has_fresh_variations(persona_id)`, called by
`AppOrchestrator.get_initial_data` but absent from the source tree's
`manager.py`.  Per section 6 the fast path regenerates "only the requested
persona/both modes if no fresh entry exists", so this holds when a non-stale
entry carries a non-empty list for the persona in both modes. -/
def CacheManager.has_fresh_variations (c : CacheManager) (persona_id : String)
    (now : Int) : Bool :=
  match c.variationsCache with
  | none => false
  | some e =>
    !(c.is_variations_stale now)
      && !(decide ((lookupP e.variations.sup persona_id).getD [] = []))
      && !(decide ((lookupP e.variations.parawing persona_id).getD [] = []))

/-- Modelled from the spec: `has_complete_variations()`, called by
`AppOrchestrator.refresh_remaining_variations` but absent from the source
tree's `manager.py`.  Per sections 5 and 8 the background fill "does nothing"
when "the cache is already complete and fresh": a non-stale entry with a
non-empty list for every persona in both modes. -/
def CacheManager.has_complete_variations (c : CacheManager) (now : Int) : Bool :=
  match c.variationsCache with
  | none => false
  | some e =>
    !(c.is_variations_stale now)
      && PERSONAS.all (fun p =>
           !(decide ((lookupP e.variations.sup p).getD [] = []))
             && !(decide ((lookupP e.variations.parawing p).getD [] = [])))

/-- Outcome environment for one orchestrator operation: the result of the
sensor fetch (`none` models `fetch()` returning `None`), the results of the
text-generator calls (an empty map or list models a failed or unparseable
call, exactly what `LLMClient` returns after absorbing an exception), and
the pure score functions. -/
structure Env where
  fetch : Option SensorReading
  genAll : Mode → PersonaMap
  genSingle : Mode → String → List String
  genOffline : PersonaMap
  scoreSup : SensorReading → Int
  scoreParawing : SensorReading → Int

/-- A record of one external text-generator call made during an operation.
Live-generation events carry the cache's offline flag as it stood at the
moment of the call. -/
inductive GenEvent where
  | genAllCall : Bool → GenEvent
  | genSingleCall : Bool → GenEvent
  | genOfflineCall : GenEvent
deriving DecidableEq, Repr

/-- Whether an event is a live-rating generation made while offline. -/
def liveOffline : GenEvent → Bool
  | GenEvent.genAllCall b => b
  | GenEvent.genSingleCall b => b
  | GenEvent.genOfflineCall => false

/-- Every live-rating generation in the trace happened with the offline flag
clear. -/
def noLiveWhileOffline (evs : List GenEvent) : Bool :=
  evs.all (fun e => !(liveOffline e))

/-- Whether the trace contains any live-rating generator call at all. -/
def hasLiveGen (evs : List GenEvent) : Bool :=
  evs.any (fun e =>
    match e with
    | GenEvent.genAllCall _ => true
    | GenEvent.genSingleCall _ => true
    | GenEvent.genOfflineCall => false)

/-- The response dictionary assembled by the orchestrator
(`_build_offline_response` / `_build_online_response` / `get_initial_data`).
The derived `weather` display dictionary, a pure projection of the reading,
is not repeated here. -/
structure Response where
  is_offline : Bool
  timestamp : Option Int
  last_known_reading : Option SensorReading
  ratings : Option RatingSet
  variations : ModeMap
  initial_persona_id : Option String
deriving DecidableEq, Repr

/-- State of `AppOrchestrator`: the cache plus the configured source-staleness
threshold (`Config.SENSOR_STALE_THRESHOLD_SECONDS`). -/
structure Orchestrator where
  cache : CacheManager
  staleThreshold : Int
deriving DecidableEq, Repr

/-- `AppOrchestrator._ensure_offline_variations`: generate the offline pool
once; keep it only when the generator returned a non-empty mapping. -/
def ensure_offline_variations (o : Orchestrator) (env : Env) :
    Orchestrator × List GenEvent :=
  if o.cache.get_offline_variations Mode.sup "drill_sergeant" ≠ [] then (o, [])
  else
    let pool := env.genOffline
    if pool ≠ [] then
      ({ o with cache := o.cache.set_offline_variations { sup := pool, parawing := pool } },
        [GenEvent.genOfflineCall])
    else (o, [GenEvent.genOfflineCall])

/-- `AppOrchestrator._refresh_sensor`: fetch, go offline on failure (keeping
the existing last-known reading) or on a source-stale reading (which becomes
the new last-known), otherwise score and store the fresh reading. -/
def refresh_sensor (o : Orchestrator) (env : Env) (now : Int) :
    Orchestrator × List GenEvent :=
  match env.fetch with
  | none =>
    let c := o.cache.set_offline o.cache.get_last_known_reading
    ensure_offline_variations { o with cache := c } env
  | some reading =>
    if reading.is_stale o.staleThreshold now then
      let c := o.cache.set_offline (some reading)
      ensure_offline_variations { o with cache := c } env
    else
      let ratings : RatingSet :=
        { sup := env.scoreSup reading, parawing := env.scoreParawing reading }
      ({ o with cache := o.cache.set_sensor reading ratings now }, [])

/-- `AppOrchestrator._refresh_variations`: when a fresh sensor entry with a
reading exists, call the batch generator for both modes and replace the
variations entry with whatever came back (the plain, non-merging
`set_variations`). -/
def refresh_variations (o : Orchestrator) (ratings : RatingSet) (env : Env)
    (now : Int) : Orchestrator × List GenEvent :=
  match o.cache.get_sensor now with
  | none => (o, [])
  | some sd =>
    match sd.reading with
    | none => (o, [])
    | some _ =>
      let variations : ModeMap :=
        { sup := env.genAll Mode.sup, parawing := env.genAll Mode.parawing }
      ({ o with cache := o.cache.set_variations ratings variations now },
        [GenEvent.genAllCall o.cache.isOffline, GenEvent.genAllCall o.cache.isOffline])

/-- `AppOrchestrator._build_offline_response`. -/
def build_offline_response (c : CacheManager) : Response :=
  { is_offline := true
    timestamp := c.get_last_known_reading.map (fun r => r.timestamp_utc)
    last_known_reading := c.get_last_known_reading
    ratings := none
    variations := { sup := [], parawing := [] }
    initial_persona_id := none }

/-- `AppOrchestrator._build_online_response`. -/
def build_online_response (c : CacheManager) (now : Int) : Response :=
  let sd := c.get_sensor now
  { is_offline := false
    timestamp := sd.map (fun e => e.fetched_at)
    last_known_reading := sd.bind (fun e => e.reading)
    ratings := sd.map (fun e => e.ratings)
    variations :=
      match c.get_all_variations with
      | none => { sup := [], parawing := [] }
      | some e => e.variations
    initial_persona_id := none }

/-- `AppOrchestrator.get_cached_data`: refresh the sensor if stale, answer
offline if the offline flag is set, otherwise regenerate variations when the
cache says so and assemble the online response. -/
def get_cached_data (o : Orchestrator) (env : Env) (now : Int) :
    Orchestrator × Response × List GenEvent :=
  let step1 :=
    if o.cache.is_sensor_stale now then refresh_sensor o env now else (o, [])
  let o1 := step1.1
  if o1.cache.is_offline then (o1, build_offline_response o1.cache, step1.2)
  else
    match o1.cache.get_ratings with
    | none => (o1, build_online_response o1.cache now, step1.2)
    | some current_ratings =>
      if o1.cache.should_regenerate_variations current_ratings now then
        let step2 := refresh_variations o1 current_ratings env now
        (step2.1, build_online_response step2.1.cache now, step1.2 ++ step2.2)
      else (o1, build_online_response o1.cache now, step1.2)

/-- `AppOrchestrator.get_initial_data`: the fast first-paint path; refresh the
sensor if stale, answer offline without generating when offline or without a
reading, reuse a fresh per-persona cache entry, otherwise generate the one
requested persona in both modes and store it with `merge=True`. -/
def get_initial_data (o : Orchestrator) (persona_id : String) (env : Env)
    (now : Int) : Orchestrator × Response × List GenEvent :=
  let step1 :=
    if o.cache.is_sensor_stale now then refresh_sensor o env now else (o, [])
  let o1 := step1.1
  if o1.cache.is_offline then (o1, build_offline_response o1.cache, step1.2)
  else
    match o1.cache.get_sensor now with
    | none => (o1, build_offline_response o1.cache, step1.2)
    | some sd =>
      match sd.reading with
      | none => (o1, build_offline_response o1.cache, step1.2)
      | some reading =>
        let ratings := sd.ratings
        if o1.cache.has_fresh_variations persona_id now then
          (o1,
            { is_offline := false
              timestamp := some sd.fetched_at
              last_known_reading := some reading
              ratings := some ratings
              variations :=
                match o1.cache.get_all_variations with
                | none => { sup := [], parawing := [] }
                | some e => e.variations
              initial_persona_id := some persona_id },
            step1.2)
        else
          let sup_variations := env.genSingle Mode.sup persona_id
          let parawing_variations := env.genSingle Mode.parawing persona_id
          let initial_variations : ModeMap :=
            { sup := [(persona_id, sup_variations)]
              parawing := [(persona_id, parawing_variations)] }
          let o2 :=
            { o1 with
              cache := o1.cache.set_variations_merge ratings initial_variations now }
          (o2,
            { is_offline := false
              timestamp := some sd.fetched_at
              last_known_reading := some reading
              ratings := some ratings
              variations := initial_variations
              initial_persona_id := some persona_id },
            step1.2
              ++ [GenEvent.genSingleCall o1.cache.isOffline,
                  GenEvent.genSingleCall o1.cache.isOffline])

/-- `AppOrchestrator.refresh_remaining_variations`: the background fill; do
nothing when offline, when the cache is already complete, or when no fresh
sensor reading exists; otherwise batch-generate both modes and store with
`merge=True`.  The two arguments of the Python method are used only for
logging. -/
def refresh_remaining_variations (o : Orchestrator) (initial_persona_id : String)
    (initial_mode : Mode) (env : Env) (now : Int) : Orchestrator × List GenEvent :=
  if o.cache.is_offline then (o, [])
  else if o.cache.has_complete_variations now then (o, [])
  else
    match o.cache.get_sensor now with
    | none => (o, [])
    | some sd =>
      match sd.reading with
      | none => (o, [])
      | some _ =>
        let ratings := (o.cache.get_ratings).getD { sup := 5, parawing := 5 }
        let variations : ModeMap :=
          { sup := env.genAll Mode.sup, parawing := env.genAll Mode.parawing }
        ({ o with cache := o.cache.set_variations_merge ratings variations now },
          [GenEvent.genAllCall o.cache.isOffline, GenEvent.genAllCall o.cache.isOffline])

/-- One mode's generation inside `AppOrchestrator.warmup_cache`: try the
batch call; when it comes back empty, fall back to one single-persona call
per persona, keeping the non-empty results. -/
def warmup_mode (env : Env) (offlineFlag : Bool) (mode : Mode) :
    PersonaMap × List GenEvent :=
  let mv := env.genAll mode
  if mv ≠ [] then (mv, [GenEvent.genAllCall offlineFlag])
  else
    PERSONAS.foldl
      (fun acc p =>
        let pv := env.genSingle mode p
        (if pv ≠ [] then acc.1 ++ [(p, pv)] else acc.1,
          acc.2 ++ [GenEvent.genSingleCall offlineFlag]))
      ([], [GenEvent.genAllCall offlineFlag])

/-- `AppOrchestrator.warmup_cache`: refresh the sensor, generate the offline
pool when offline, otherwise generate all variations for both modes (with
the per-persona fallback) and store them with the plain `set_variations`. -/
def warmup_cache (o : Orchestrator) (env : Env) (now : Int) :
    Orchestrator × List GenEvent :=
  let step1 := refresh_sensor o env now
  let o1 := step1.1
  if o1.cache.is_offline then
    let step2 := ensure_offline_variations o1 env
    (step2.1, step1.2 ++ step2.2)
  else
    match o1.cache.get_sensor now with
    | none => (o1, step1.2)
    | some sd =>
      match sd.reading with
      | none => (o1, step1.2)
      | some _ =>
        let ratings := sd.ratings
        let supGen := warmup_mode env o1.cache.isOffline Mode.sup
        let paraGen := warmup_mode env o1.cache.isOffline Mode.parawing
        let variations : ModeMap := { sup := supGen.1, parawing := paraGen.1 }
        ({ o1 with cache := o1.cache.set_variations ratings variations now },
          step1.2 ++ supGen.2 ++ paraGen.2)

/-- `AppOrchestrator._ratings_changed_significantly`: true when either mode's
rating moved by strictly more than 2 points. -/
def ratings_changed_significantly (new_ratings old_ratings : RatingSet) : Bool :=
  (new_ratings.sup - old_ratings.sup).natAbs > 2
    || (new_ratings.parawing - old_ratings.parawing).natAbs > 2

/-- `AppOrchestrator.check_and_refresh_if_needed`: the periodic maintenance
check; always refresh the sensor, handle offline, warm up when no variations
cache exists, regenerate when the ratings moved significantly against the
last generated snapshot. -/
def check_and_refresh_if_needed (o : Orchestrator) (env : Env) (now : Int) :
    Orchestrator × List GenEvent :=
  let step1 := refresh_sensor o env now
  let o1 := step1.1
  if o1.cache.is_offline then
    let step2 := ensure_offline_variations o1 env
    (step2.1, step1.2 ++ step2.2)
  else
    match o1.cache.get_ratings with
    | none => (o1, step1.2)
    | some new_ratings =>
      match o1.cache.get_all_variations with
      | none =>
        let w := warmup_cache o1 env now
        (w.1, step1.2 ++ w.2)
      | some vc =>
        if ratings_changed_significantly new_ratings vc.rating_snapshot then
          let step2 := refresh_variations o1 new_ratings env now
          (step2.1, step1.2 ++ step2.2)
        else (o1, step1.2)

/-- Run `get_cached_data` over a sequence of request environments and times,
collecting the responses. -/
def run_get_cached_data (o : Orchestrator) :
    List (Env × Int) → Orchestrator × List Response
  | [] => (o, [])
  | (env, now) :: rest =>
    let step := get_cached_data o env now
    let later := run_get_cached_data step.1 rest
    (later.1, step.2.1 :: later.2)

/-! Helper lemmas about association-list lookup and merging. -/

/-- Looking up in an appended map falls through to the second map when the
first has no binding for the key. -/
theorem lookupP_append_of_none (l1 l2 : PersonaMap) (p : String)
    (h : lookupP l1 p = none) : lookupP (l1 ++ l2) p = lookupP l2 p := by
  induction l1 with
  | nil => simp
  | cons kv rest ih =>
    obtain ⟨k, v⟩ := kv
    by_cases hk : k = p
    · simp [lookupP, hk] at h
    · simp [lookupP, hk] at h ⊢
      exact ih h

/-- Filtering by a key predicate that holds at `p` does not change the
binding found for `p`. -/
theorem lookupP_filter_key (l : PersonaMap) (g : String → Bool) (p : String)
    (hg : g p = true) :
    lookupP (l.filter (fun kv => g kv.1)) p = lookupP l p := by
  induction l with
  | nil => simp
  | cons kv rest ih =>
    obtain ⟨k, v⟩ := kv
    by_cases hk : k = p
    · subst hk
      simp [List.filter, hg, lookupP]
    · by_cases hgk : g k = true
      · simp [List.filter, hgk, lookupP, hk, ih]
      · simp only [Bool.not_eq_true] at hgk
        simp [List.filter, hgk, lookupP, hk, ih]

/-- A persona absent from the new payload keeps its old list across a merge. -/
theorem lookupP_mergePersonaMap_of_absent (old new : PersonaMap) (p : String)
    (h : lookupP new p = none) :
    lookupP (mergePersonaMap old new) p = lookupP old p := by
  unfold mergePersonaMap
  rw [lookupP_append_of_none _ _ _ h]
  exact lookupP_filter_key old (fun k => (lookupP new k).isNone) p (by simp [h])

/-- Claim C7: for every prior cache state and offline state, `set_sensor`
replaces the snapshot entry with the given reading, ratings and the current
time, and clears the offline flag. -/
theorem C7_set_sensor_replaces_and_clears_offline :
    ∀ (c : CacheManager) (r : SensorReading) (ratings : RatingSet) (now : Int),
      (c.set_sensor r ratings now).sensorCache
          = some { reading := some r, ratings := ratings, fetched_at := now }
        ∧ (c.set_sensor r ratings now).is_offline = false := by
  intro c r ratings now
  exact ⟨rfl, rfl⟩

/-- Claim C10: `clear` resets only the sensor cache, the variations cache and
the offline flag; the last known reading and the offline variation pool are
untouched, so `get_last_known_reading` still answers the last recorded
reading afterwards. -/
theorem C10_clear_is_framed :
    ∀ (c : CacheManager),
      c.clear.sensorCache = none
        ∧ c.clear.variationsCache = none
        ∧ c.clear.isOffline = false
        ∧ c.clear.lastKnownReading = c.lastKnownReading
        ∧ c.clear.offlineVariations = c.offlineVariations
        ∧ c.clear.sensor_ttl_seconds = c.sensor_ttl_seconds
        ∧ c.clear.variations_ttl_minutes = c.variations_ttl_minutes
        ∧ c.clear.get_last_known_reading = c.get_last_known_reading
        ∧ ∀ (r : SensorReading) (ratings : RatingSet) (now : Int),
            ((c.set_sensor r ratings now).clear).get_last_known_reading = some r := by
  intro c
  exact ⟨rfl, rfl, rfl, rfl, rfl, rfl, rfl, rfl, fun r ratings now => rfl⟩

/-- Claim C6: `get_sensor` returns the stored entry exactly when its age is
at most the sensor TTL (in particular at exactly TTL seconds of age) and
returns empty when its age strictly exceeds the TTL. -/
theorem C6_get_sensor_ttl_boundary :
    ∀ (c : CacheManager) (now : Int) (e : SensorCacheEntry),
      c.sensorCache = some e →
      (c.get_sensor now = some e ↔ now - e.fetched_at ≤ c.sensor_ttl_seconds)
        ∧ (now - e.fetched_at > c.sensor_ttl_seconds → c.get_sensor now = none)
        ∧ (now - e.fetched_at = c.sensor_ttl_seconds → c.get_sensor now = some e) := by
  intro c now e he
  have hs : c.is_sensor_stale now = decide (now - e.fetched_at > c.sensor_ttl_seconds) := by
    simp [CacheManager.is_sensor_stale, he]
  refine ⟨?_, ?_, ?_⟩
  · constructor
    · intro hret
      by_contra hgt
      push_neg at hgt
      simp [CacheManager.get_sensor, hs, hgt] at hret
    · intro hle
      have : ¬ now - e.fetched_at > c.sensor_ttl_seconds := not_lt.mpr hle
      simp [CacheManager.get_sensor, hs, this, he]
  · intro hgt
    simp [CacheManager.get_sensor, hs, hgt]
  · intro heq
    have : ¬ now - e.fetched_at > c.sensor_ttl_seconds := by omega
    simp [CacheManager.get_sensor, hs, this, he]

/-- Witness for C6 at a concrete cache: an entry of age exactly the TTL is
still returned. -/
theorem C6_get_sensor_ttl_boundary_witness :
    ({ sensor_ttl_seconds := 120, variations_ttl_minutes := 15,
       sensorCache := some { reading := none, ratings := { sup := 5, parawing := 4 },
                             fetched_at := 0 },
       variationsCache := none, isOffline := false,
       lastKnownReading := none, offlineVariations := none } :
      CacheManager).get_sensor 120
      = some { reading := none, ratings := { sup := 5, parawing := 4 }, fetched_at := 0 } :=
  ((C6_get_sensor_ttl_boundary _ 120 _ rfl).2.2) (by decide)

/-- Claim C1: `should_regenerate_variations(currentRatings)` is true exactly
when no variations entry exists, the entry's age exceeds the variations TTL,
or the stored rating snapshot differs (as a whole mapping) from the current
ratings; in particular an entry generated for R1 is reported stale against
every R2 different from R1, at every query time. -/
theorem C1_should_regenerate_variations_iff :
    (∀ (c : CacheManager) (current : RatingSet) (now : Int),
      c.should_regenerate_variations current now = true ↔
        (c.variationsCache = none
          ∨ ∃ e, c.variationsCache = some e
              ∧ (now - e.generated_at > 60 * c.variations_ttl_minutes
                  ∨ e.rating_snapshot ≠ current)))
    ∧ (∀ (c : CacheManager) (R1 R2 : RatingSet) (vs : ModeMap) (t now : Int),
        R1 ≠ R2 →
        (c.set_variations R1 vs t).should_regenerate_variations R2 now = true) := by
  constructor
  · intro c current now
    cases hv : c.variationsCache with
    | none => simp [CacheManager.should_regenerate_variations, hv]
    | some e =>
      by_cases hst : now - e.generated_at > 60 * c.variations_ttl_minutes
      · simp [CacheManager.should_regenerate_variations,
              CacheManager.is_variations_stale, hv, hst]
      · simp [CacheManager.should_regenerate_variations,
              CacheManager.is_variations_stale, hv, hst]
  · intro c R1 R2 vs t now h
    by_cases hst : now - t > 60 * c.variations_ttl_minutes
    · simp [CacheManager.set_variations, CacheManager.should_regenerate_variations,
            CacheManager.is_variations_stale, hst]
    · simp [CacheManager.set_variations, CacheManager.should_regenerate_variations,
            CacheManager.is_variations_stale, hst, h]

/-- Witness for C1 at a concrete state: an entry generated for ratings 5/4 is
reported stale against ratings 7/4 even while time-fresh. -/
theorem C1_should_regenerate_variations_witness :
    (({ sensor_ttl_seconds := 120, variations_ttl_minutes := 15,
        sensorCache := none, variationsCache := none, isOffline := false,
        lastKnownReading := none, offlineVariations := none } :
       CacheManager).set_variations { sup := 5, parawing := 4 }
        { sup := [("drill_sergeant", ["old line"])], parawing := [] } 0
      ).should_regenerate_variations { sup := 7, parawing := 4 } 10 = true :=
  C1_should_regenerate_variations_iff.2 _
    { sup := 5, parawing := 4 } { sup := 7, parawing := 4 } _ 0 10 (by decide)

/-- Claim C2 (spec-modelled merge): for every existing variations entry,
storing a new payload with `merge=true` keeps, unchanged, the list of every
persona that the new payload does not mention, in both modes. -/
theorem C2_set_variations_merge_preserves_old_personas :
    ∀ (c : CacheManager) (e : VariationsCacheEntry) (snap : RatingSet)
      (vs : ModeMap) (now : Int) (p : String) (mode : Mode),
      c.variationsCache = some e →
      lookupP (vs.get mode) p = none →
      ∃ e', (c.set_variations_merge snap vs now).variationsCache = some e'
        ∧ lookupP (e'.variations.get mode) p = lookupP (e.variations.get mode) p := by
  intro c e snap vs now p mode he habsent
  refine
    ⟨{ rating_snapshot := snap
       variations :=
        { sup := mergePersonaMap e.variations.sup vs.sup
          parawing := mergePersonaMap e.variations.parawing vs.parawing }
       generated_at := now }, ?_, ?_⟩
  · simp [CacheManager.set_variations_merge, he]
  · cases mode with
    | sup => exact lookupP_mergePersonaMap_of_absent _ _ _ habsent
    | parawing => exact lookupP_mergePersonaMap_of_absent _ _ _ habsent

/-- Witness for C2 at a concrete state: a merge that only delivers the
"disappointed_dad" persona keeps the "drill_sergeant" lists already cached. -/
theorem C2_set_variations_merge_witness :
    ∃ e', (({ sensor_ttl_seconds := 120, variations_ttl_minutes := 15,
              sensorCache := none,
              variationsCache := some
                { rating_snapshot := { sup := 5, parawing := 4 }
                  variations :=
                    { sup := [("drill_sergeant", ["old sup line"])]
                      parawing := [("drill_sergeant", ["old parawing line"])] }
                  generated_at := 0 }
              isOffline := false, lastKnownReading := none, offlineVariations := none } :
            CacheManager).set_variations_merge { sup := 5, parawing := 4 }
              { sup := [("disappointed_dad", ["new line"])], parawing := [] } 60
          ).variationsCache = some e'
      ∧ lookupP (e'.variations.get Mode.sup) "drill_sergeant"
          = lookupP
              (({ sup := [("drill_sergeant", ["old sup line"])]
                  parawing := [("drill_sergeant", ["old parawing line"])] } :
                 ModeMap).get Mode.sup) "drill_sergeant" :=
  C2_set_variations_merge_preserves_old_personas _
    { rating_snapshot := { sup := 5, parawing := 4 }
      variations :=
        { sup := [("drill_sergeant", ["old sup line"])]
          parawing := [("drill_sergeant", ["old parawing line"])] }
      generated_at := 0 }
    { sup := 5, parawing := 4 }
    { sup := [("disappointed_dad", ["new line"])], parawing := [] } 60
    "drill_sergeant" Mode.sup rfl (by decide)

/-- `ensure_offline_variations` only (possibly) fills the offline pool: the
rest of the state is untouched and the only external call it can make is the
offline-pool generation. -/
theorem ensure_offline_variations_shape (o : Orchestrator) (env : Env) :
    ∃ ov, (ensure_offline_variations o env).1
        = { o with cache := { o.cache with offlineVariations := ov } }
      ∧ ((ensure_offline_variations o env).2 = []
          ∨ (ensure_offline_variations o env).2 = [GenEvent.genOfflineCall]) := by
  unfold ensure_offline_variations
  by_cases h1 : o.cache.get_offline_variations Mode.sup "drill_sergeant" ≠ []
  · exact ⟨o.cache.offlineVariations, by simp [h1], by simp [h1]⟩
  · by_cases h2 : env.genOffline ≠ []
    · refine ⟨some { sup := env.genOffline, parawing := env.genOffline }, ?_, ?_⟩ <;>
        simp [h1, h2, CacheManager.set_offline_variations]
    · exact ⟨o.cache.offlineVariations, by simp [h1, h2], by simp [h1, h2]⟩

/-- `refresh_sensor` on a failed fetch: go offline keeping the existing
last-known reading, touching at most the offline pool, with no live call. -/
theorem refresh_sensor_fail_shape (o : Orchestrator) (env : Env) (now : Int)
    (hf : env.fetch = none) :
    ∃ ov, (refresh_sensor o env now).1
        = { o with cache :=
              { o.cache with isOffline := true, offlineVariations := ov } }
      ∧ ((refresh_sensor o env now).2 = []
          ∨ (refresh_sensor o env now).2 = [GenEvent.genOfflineCall]) := by
  obtain ⟨ov, h1, h2⟩ := ensure_offline_variations_shape
    { o with cache := o.cache.set_offline o.cache.get_last_known_reading } env
  refine ⟨ov, ?_, ?_⟩
  · have : (refresh_sensor o env now).1
        = (ensure_offline_variations
            { o with cache := o.cache.set_offline o.cache.get_last_known_reading } env).1 := by
      simp [refresh_sensor, hf]
    rw [this, h1]
    cases hlk : o.cache.lastKnownReading <;>
      simp [CacheManager.set_offline, CacheManager.get_last_known_reading, hlk]
  · have : (refresh_sensor o env now).2
        = (ensure_offline_variations
            { o with cache := o.cache.set_offline o.cache.get_last_known_reading } env).2 := by
      simp [refresh_sensor, hf]
    rw [this]
    exact h2

/-- `refresh_sensor` on a fetch that succeeded with a source-stale reading:
go offline with that reading as the new last-known, touching at most the
offline pool, with no live call. -/
theorem refresh_sensor_stale_shape (o : Orchestrator) (env : Env) (now : Int)
    (r : SensorReading) (hf : env.fetch = some r)
    (hst : r.is_stale o.staleThreshold now = true) :
    ∃ ov, (refresh_sensor o env now).1
        = { o with cache :=
              { o.cache with isOffline := true, lastKnownReading := some r,
                             offlineVariations := ov } }
      ∧ ((refresh_sensor o env now).2 = []
          ∨ (refresh_sensor o env now).2 = [GenEvent.genOfflineCall]) := by
  obtain ⟨ov, h1, h2⟩ := ensure_offline_variations_shape
    { o with cache := o.cache.set_offline (some r) } env
  refine ⟨ov, ?_, ?_⟩
  · have : (refresh_sensor o env now).1
        = (ensure_offline_variations { o with cache := o.cache.set_offline (some r) } env).1 := by
      simp [refresh_sensor, hf, hst]
    rw [this, h1]
    simp [CacheManager.set_offline]
  · have : (refresh_sensor o env now).2
        = (ensure_offline_variations { o with cache := o.cache.set_offline (some r) } env).2 := by
      simp [refresh_sensor, hf, hst]
    rw [this]
    exact h2

/-- `refresh_sensor` on a fresh successful fetch: score and store, no
external text-generator call. -/
theorem refresh_sensor_fresh_shape (o : Orchestrator) (env : Env) (now : Int)
    (r : SensorReading) (hf : env.fetch = some r)
    (hst : r.is_stale o.staleThreshold now = false) :
    refresh_sensor o env now
      = ({ o with cache := (o.cache.set_sensor r
            { sup := env.scoreSup r, parawing := env.scoreParawing r } now) }, []) := by
  simp [refresh_sensor, hf, hst]

/-- `refresh_sensor` never calls the live text generator. -/
theorem refresh_sensor_events_cases (o : Orchestrator) (env : Env) (now : Int) :
    (refresh_sensor o env now).2 = []
      ∨ (refresh_sensor o env now).2 = [GenEvent.genOfflineCall] := by
  cases hf : env.fetch with
  | none => exact (refresh_sensor_fail_shape o env now hf).choose_spec.2
  | some r =>
    cases hst : r.is_stale o.staleThreshold now with
    | false => rw [refresh_sensor_fresh_shape o env now r hf hst]; exact Or.inl rfl
    | true => exact (refresh_sensor_stale_shape o env now r hf hst).choose_spec.2

/-- Claim C4 (spec-modelled completeness check): whenever the variations
cache is complete and fresh, the background fill returns with the state
unchanged and zero external calls; hence a second redundant call also does
nothing. -/
theorem C4_refresh_remaining_idempotent_when_complete :
    ∀ (o : Orchestrator) (p : String) (m : Mode) (env : Env) (now : Int),
      o.cache.has_complete_variations now = true →
      refresh_remaining_variations o p m env now = (o, []) := by
  intro o p m env now h
  unfold refresh_remaining_variations
  by_cases hoff : o.cache.is_offline
  · simp [hoff]
  · simp [hoff, h]

/-- Witness for C4 at a concrete complete, fresh cache: the background fill
is a no-op there. -/
theorem C4_refresh_remaining_idempotent_witness :
    refresh_remaining_variations
      ⟨⟨120, 15, none,
        some ⟨⟨5, 4⟩,
          ⟨[("drill_sergeant", ["s1"]), ("disappointed_dad", ["s2"])],
            [("drill_sergeant", ["p1"]), ("disappointed_dad", ["p2"])]⟩, 0⟩,
        false, none, none⟩, 300⟩
      "drill_sergeant" Mode.sup
      ⟨none, fun _ => [], fun _ _ => [], [], fun _ => 5, fun _ => 5⟩
      60
      = (⟨⟨120, 15, none,
          some ⟨⟨5, 4⟩,
            ⟨[("drill_sergeant", ["s1"]), ("disappointed_dad", ["s2"])],
              [("drill_sergeant", ["p1"]), ("disappointed_dad", ["p2"])]⟩, 0⟩,
          false, none, none⟩, 300⟩, []) :=
  C4_refresh_remaining_idempotent_when_complete _ "drill_sergeant" Mode.sup _ 60 (by decide)

/-- One `get_cached_data` request against an empty cache whose fetch fails:
the response is offline with an empty last-known reading, and the state
still has no snapshot and no last-known reading. -/
theorem get_cached_data_fail_step (o : Orchestrator) (env : Env) (now : Int)
    (hsc : o.cache.sensorCache = none) (hlk : o.cache.lastKnownReading = none)
    (hf : env.fetch = none) :
    (get_cached_data o env now).2.1.is_offline = true
      ∧ (get_cached_data o env now).2.1.last_known_reading = none
      ∧ (get_cached_data o env now).1.cache.sensorCache = none
      ∧ (get_cached_data o env now).1.cache.lastKnownReading = none := by
  obtain ⟨ov, h1, _⟩ := refresh_sensor_fail_shape o env now hf
  have hstale : o.cache.is_sensor_stale now = true := by
    simp [CacheManager.is_sensor_stale, hsc]
  simp only [get_cached_data, hstale, if_true, h1]
  simp [CacheManager.is_offline, build_offline_response,
        CacheManager.get_last_known_reading, hlk, hsc]

/-- Claim C8: a successful fetch of a source-stale reading marks offline with
that reading as the new last-known; a failed fetch marks offline preserving
the existing last-known; and any run of consecutive failed fetches starting
with no snapshot and no last-known reading produces only offline responses
with an empty last-known reading. -/
theorem C8_offline_degradation :
    (∀ (o : Orchestrator) (env : Env) (now : Int) (r : SensorReading),
        env.fetch = some r → r.is_stale o.staleThreshold now = true →
        (refresh_sensor o env now).1.cache.is_offline = true
          ∧ (refresh_sensor o env now).1.cache.get_last_known_reading = some r)
      ∧ (∀ (o : Orchestrator) (env : Env) (now : Int),
          env.fetch = none →
          (refresh_sensor o env now).1.cache.is_offline = true
            ∧ (refresh_sensor o env now).1.cache.get_last_known_reading
                = o.cache.get_last_known_reading)
      ∧ (∀ (o : Orchestrator) (steps : List (Env × Int)),
          o.cache.sensorCache = none → o.cache.lastKnownReading = none →
          (steps.all fun st => st.1.fetch.isNone) = true →
          ((run_get_cached_data o steps).2.all
              fun resp => resp.is_offline && resp.last_known_reading.isNone) = true) := by
  refine ⟨?_, ?_, ?_⟩
  · intro o env now r hf hst
    obtain ⟨ov, h1, _⟩ := refresh_sensor_stale_shape o env now r hf hst
    rw [h1]
    exact ⟨rfl, rfl⟩
  · intro o env now hf
    obtain ⟨ov, h1, _⟩ := refresh_sensor_fail_shape o env now hf
    rw [h1]
    exact ⟨rfl, rfl⟩
  · intro o steps
    induction steps generalizing o with
    | nil => intro _ _ _; simp [run_get_cached_data]
    | cons st rest ih =>
      intro hsc hlk hall
      obtain ⟨env, now⟩ := st
      simp only [List.all_cons, Bool.and_eq_true] at hall
      have hf : env.fetch = none := by
        cases henv : env.fetch with
        | none => rfl
        | some r => rw [henv] at hall; simp at hall
      obtain ⟨hoff, hlkr, hsc', hlk'⟩ := get_cached_data_fail_step o env now hsc hlk hf
      simp only [run_get_cached_data, List.all_cons, Bool.and_eq_true]
      exact ⟨by simp [hoff, hlkr], ih _ hsc' hlk' hall.2⟩

/-- Witness for C8 at concrete inputs: three consecutive failed fetches with
no prior last-known reading give three offline responses with empty
last-known readings. -/
theorem C8_offline_degradation_witness :
    ((run_get_cached_data ⟨⟨120, 15, none, none, false, none, none⟩, 300⟩
        [(⟨none, fun _ => [], fun _ _ => [], [], fun _ => 5, fun _ => 5⟩, 0),
         (⟨none, fun _ => [], fun _ _ => [], [], fun _ => 5, fun _ => 5⟩, 200),
         (⟨none, fun _ => [], fun _ _ => [], [], fun _ => 5, fun _ => 5⟩, 400)]).2.all
      fun resp => resp.is_offline && resp.last_known_reading.isNone) = true :=
  C8_offline_degradation.2.2 ⟨⟨120, 15, none, none, false, none, none⟩, 300⟩
    [(⟨none, fun _ => [], fun _ _ => [], [], fun _ => 5, fun _ => 5⟩, 0),
     (⟨none, fun _ => [], fun _ _ => [], [], fun _ => 5, fun _ => 5⟩, 200),
     (⟨none, fun _ => [], fun _ _ => [], [], fun _ => 5, fun _ => 5⟩, 400)]
    rfl rfl (by rfl)

/-- Claim C9: when the periodic check ends up online with a populated
variations cache, it regenerates (two live batch calls, replacing the
entry with one for the new ratings) exactly when some mode's new rating
differs from the last generated snapshot's rating for that mode by strictly
more than 2 points; otherwise it makes no generator call and leaves the
entry alone, regardless of the variation TTL. -/
theorem C9_periodic_check_regen_iff_delta :
    ∀ (o : Orchestrator) (env : Env) (now : Int) (newR : RatingSet)
      (vc : VariationsCacheEntry),
      0 ≤ o.cache.sensor_ttl_seconds →
      (refresh_sensor o env now).1.cache.is_offline = false →
      (refresh_sensor o env now).1.cache.get_ratings = some newR →
      (refresh_sensor o env now).1.cache.get_all_variations = some vc →
      (hasLiveGen (check_and_refresh_if_needed o env now).2
          = ratings_changed_significantly newR vc.rating_snapshot)
        ∧ (ratings_changed_significantly newR vc.rating_snapshot
            = (decide (2 < (newR.sup - vc.rating_snapshot.sup).natAbs)
                || decide (2 < (newR.parawing - vc.rating_snapshot.parawing).natAbs)))
        ∧ ((check_and_refresh_if_needed o env now).1.cache.variationsCache
            = if ratings_changed_significantly newR vc.rating_snapshot
              then some { rating_snapshot := newR
                          variations := { sup := env.genAll Mode.sup
                                          parawing := env.genAll Mode.parawing }
                          generated_at := now }
              else some vc) := by
  intro o env now newR vc httl hoff hrat hvc
  cases hf : env.fetch with
  | none =>
    obtain ⟨ov, h1, _⟩ := refresh_sensor_fail_shape o env now hf
    rw [h1] at hoff
    simp [CacheManager.is_offline] at hoff
  | some r =>
    cases hst : r.is_stale o.staleThreshold now with
    | true =>
      obtain ⟨ov, h1, _⟩ := refresh_sensor_stale_shape o env now r hf hst
      rw [h1] at hoff
      simp [CacheManager.is_offline] at hoff
    | false =>
      have hfresh := refresh_sensor_fresh_shape o env now r hf hst
      rw [hfresh] at hrat hvc
      obtain ⟨ns, np⟩ := newR
      simp only [CacheManager.get_ratings, CacheManager.set_sensor,
        CacheManager.get_all_variations, Option.map_some', Option.some.injEq,
        RatingSet.mk.injEq] at hrat hvc
      obtain ⟨hns, hnp⟩ := hrat
      subst hns
      subst hnp
      have hno : ¬ ((0 : Int) > o.cache.sensor_ttl_seconds) := by omega
      by_cases hchg : ratings_changed_significantly
          { sup := env.scoreSup r, parawing := env.scoreParawing r }
          vc.rating_snapshot = true
      · refine ⟨?_, by rfl, ?_⟩
        · simp only [check_and_refresh_if_needed, hfresh, CacheManager.is_offline,
            CacheManager.set_sensor, CacheManager.get_ratings, Option.map_some',
            CacheManager.get_all_variations, hvc, hchg, if_true,
            refresh_variations, CacheManager.get_sensor]
          simp [CacheManager.is_sensor_stale, hno, hasLiveGen, hchg]
        · simp only [check_and_refresh_if_needed, hfresh, CacheManager.is_offline,
            CacheManager.set_sensor, CacheManager.get_ratings, Option.map_some',
            CacheManager.get_all_variations, hvc, hchg, if_true,
            refresh_variations, CacheManager.get_sensor]
          simp [CacheManager.is_sensor_stale, hno, CacheManager.set_variations, hchg]
      · have hchg' : ratings_changed_significantly
            { sup := env.scoreSup r, parawing := env.scoreParawing r }
            vc.rating_snapshot = false := by
          cases h : ratings_changed_significantly
              { sup := env.scoreSup r, parawing := env.scoreParawing r }
              vc.rating_snapshot
          · rfl
          · exact absurd h hchg
        refine ⟨?_, by rfl, ?_⟩
        · simp only [check_and_refresh_if_needed, hfresh, CacheManager.is_offline,
            CacheManager.set_sensor, CacheManager.get_ratings, Option.map_some',
            CacheManager.get_all_variations, hvc, hchg']
          simp [hasLiveGen]
        · simp only [check_and_refresh_if_needed, hfresh, CacheManager.is_offline,
            CacheManager.set_sensor, CacheManager.get_ratings, Option.map_some',
            CacheManager.get_all_variations, hvc, hchg']
          simp [hvc]

/-- Witness for C9 at concrete inputs: the sup rating moved from 5 to 9
(delta 4 > 2) while the variations entry is time-fresh, and the periodic
check does call the live generator. -/
theorem C9_periodic_check_regen_witness :
    hasLiveGen
      (check_and_refresh_if_needed
        ⟨⟨120, 15, none,
          some ⟨⟨5, 4⟩, ⟨[("drill_sergeant", ["v"])], []⟩, 0⟩,
          false, none, none⟩, 300⟩
        ⟨some ⟨20, 25, 15, "N", 0, 75, 1000, "Test"⟩,
          fun _ => [("drill_sergeant", ["new"])], fun _ _ => [], [],
          fun _ => 9, fun _ => 4⟩
        1000).2
      = ratings_changed_significantly ⟨9, 4⟩ ⟨5, 4⟩ :=
  (C9_periodic_check_regen_iff_delta
    ⟨⟨120, 15, none,
      some ⟨⟨5, 4⟩, ⟨[("drill_sergeant", ["v"])], []⟩, 0⟩,
      false, none, none⟩, 300⟩
    ⟨some ⟨20, 25, 15, "N", 0, 75, 1000, "Test"⟩,
      fun _ => [("drill_sergeant", ["new"])], fun _ _ => [], [],
      fun _ => 9, fun _ => 4⟩
    1000 ⟨9, 4⟩ ⟨⟨5, 4⟩, ⟨[("drill_sergeant", ["v"])], []⟩, 0⟩
    (by decide) rfl rfl rfl).1

/-- Counterexample to C3 as stated: a concrete state with a populated
variations entry (persona "drill_sergeant" in both modes, snapshot 5/4), a
fresh sensor entry, and a text generator that fails (returns the empty
mapping for both modes).  The refresh does not leave the previous entry
untouched: it replaces it, losing the old persona lists and the old
snapshot. -/
theorem C3_counterexample_failed_generation_clobbers :
    (refresh_variations
        ⟨⟨120, 15,
          some ⟨some ⟨20, 25, 15, "N", 0, 75, 100, "Test"⟩, ⟨7, 4⟩, 100⟩,
          some ⟨⟨5, 4⟩,
            ⟨[("drill_sergeant", ["old sup line"])],
              [("drill_sergeant", ["old parawing line"])]⟩, 0⟩,
          false, some ⟨20, 25, 15, "N", 0, 75, 100, "Test"⟩, none⟩, 300⟩
        ⟨7, 4⟩
        ⟨none, fun _ => [], fun _ _ => [], [], fun _ => 0, fun _ => 0⟩
        100).1.cache.get_variations Mode.sup "drill_sergeant" = []
      ∧ (⟨⟨120, 15,
            some ⟨some ⟨20, 25, 15, "N", 0, 75, 100, "Test"⟩, ⟨7, 4⟩, 100⟩,
            some ⟨⟨5, 4⟩,
              ⟨[("drill_sergeant", ["old sup line"])],
                [("drill_sergeant", ["old parawing line"])]⟩, 0⟩,
            false, some ⟨20, 25, 15, "N", 0, 75, 100, "Test"⟩, none⟩, 300⟩ :
          Orchestrator).cache.get_variations Mode.sup "drill_sergeant"
          = ["old sup line"]
      ∧ (refresh_variations
          ⟨⟨120, 15,
            some ⟨some ⟨20, 25, 15, "N", 0, 75, 100, "Test"⟩, ⟨7, 4⟩, 100⟩,
            some ⟨⟨5, 4⟩,
              ⟨[("drill_sergeant", ["old sup line"])],
                [("drill_sergeant", ["old parawing line"])]⟩, 0⟩,
            false, some ⟨20, 25, 15, "N", 0, 75, 100, "Test"⟩, none⟩, 300⟩
          ⟨7, 4⟩
          ⟨none, fun _ => [], fun _ _ => [], [], fun _ => 0, fun _ => 0⟩
          100).1.cache.variationsCache
          ≠ (⟨⟨120, 15,
              some ⟨some ⟨20, 25, 15, "N", 0, 75, 100, "Test"⟩, ⟨7, 4⟩, 100⟩,
              some ⟨⟨5, 4⟩,
                ⟨[("drill_sergeant", ["old sup line"])],
                  [("drill_sergeant", ["old parawing line"])]⟩, 0⟩,
              false, some ⟨20, 25, 15, "N", 0, 75, 100, "Test"⟩, none⟩, 300⟩ :
            Orchestrator).cache.variationsCache := by
  refine ⟨by decide, by decide, by decide⟩

/-- Claim C3 as amended: when the batch text-generator calls of a variation
refresh fail for both modes (empty mappings), no error is propagated (the
refresh returns normally, in our model as a total function), but the
previously cached variation entry is not preserved: whenever a fresh sensor
entry with a reading exists, `_refresh_variations` overwrites the entry with
one carrying the current ratings as snapshot and empty persona maps for
both modes, so every old persona list is gone. -/
theorem C3_amended_failed_generation_overwrites :
    ∀ (o : Orchestrator) (ratings : RatingSet) (env : Env) (now : Int)
      (sd : SensorCacheEntry) (r : SensorReading),
      env.genAll Mode.sup = [] → env.genAll Mode.parawing = [] →
      o.cache.get_sensor now = some sd → sd.reading = some r →
      (refresh_variations o ratings env now).1.cache.variationsCache
          = some { rating_snapshot := ratings
                   variations := { sup := [], parawing := [] }
                   generated_at := now }
        ∧ ∀ (mode : Mode) (p : String),
            (refresh_variations o ratings env now).1.cache.get_variations mode p = [] := by
  intro o ratings env now sd r hga1 hga2 hsd hr
  have hres : (refresh_variations o ratings env now).1.cache.variationsCache
      = some { rating_snapshot := ratings
               variations := { sup := [], parawing := [] }
               generated_at := now } := by
    simp only [refresh_variations, hsd, hr, hga1, hga2, CacheManager.set_variations]
  refine ⟨hres, ?_⟩
  intro mode p
  cases mode <;>
    simp [CacheManager.get_variations, hres, ModeMap.get, lookupP]

/-- Witness for the amended C3 at the counterexample's concrete input. -/
theorem C3_amended_failed_generation_witness :
    (refresh_variations
        ⟨⟨120, 15,
          some ⟨some ⟨20, 25, 15, "N", 0, 75, 100, "Test"⟩, ⟨7, 4⟩, 100⟩,
          some ⟨⟨5, 4⟩,
            ⟨[("drill_sergeant", ["old sup line"])],
              [("drill_sergeant", ["old parawing line"])]⟩, 0⟩,
          false, some ⟨20, 25, 15, "N", 0, 75, 100, "Test"⟩, none⟩, 300⟩
        ⟨7, 4⟩
        ⟨none, fun _ => [], fun _ _ => [], [], fun _ => 0, fun _ => 0⟩
        100).1.cache.variationsCache
      = some { rating_snapshot := ⟨7, 4⟩
               variations := { sup := [], parawing := [] }
               generated_at := 100 } :=
  (C3_amended_failed_generation_overwrites
    ⟨⟨120, 15,
      some ⟨some ⟨20, 25, 15, "N", 0, 75, 100, "Test"⟩, ⟨7, 4⟩, 100⟩,
      some ⟨⟨5, 4⟩,
        ⟨[("drill_sergeant", ["old sup line"])],
          [("drill_sergeant", ["old parawing line"])]⟩, 0⟩,
      false, some ⟨20, 25, 15, "N", 0, 75, 100, "Test"⟩, none⟩, 300⟩
    ⟨7, 4⟩
    ⟨none, fun _ => [], fun _ _ => [], [], fun _ => 0, fun _ => 0⟩
    100
    ⟨some ⟨20, 25, 15, "N", 0, 75, 100, "Test"⟩, ⟨7, 4⟩, 100⟩
    ⟨20, 25, 15, "N", 0, 75, 100, "Test"⟩
    rfl rfl rfl rfl).1

/-- `refresh_sensor` makes no live-rating generator call at all. -/
theorem refresh_sensor_noLive (o : Orchestrator) (env : Env) (now : Int) :
    noLiveWhileOffline (refresh_sensor o env now).2 = true := by
  rcases refresh_sensor_events_cases o env now with h | h <;> rw [h] <;> rfl

/-- `refresh_sensor` contributes no live generation to any trace. -/
theorem refresh_sensor_noGen (o : Orchestrator) (env : Env) (now : Int) :
    hasLiveGen (refresh_sensor o env now).2 = false := by
  rcases refresh_sensor_events_cases o env now with h | h <;> rw [h] <;> rfl

/-- When the offline flag is clear, the live calls of `refresh_variations`
are recorded against a clear flag. -/
theorem refresh_variations_noLive (o : Orchestrator) (r : RatingSet) (env : Env)
    (now : Int) (h : o.cache.isOffline = false) :
    noLiveWhileOffline (refresh_variations o r env now).2 = true := by
  cases hgs : o.cache.get_sensor now with
  | none => simp [refresh_variations, hgs, noLiveWhileOffline]
  | some sd =>
    cases hr : sd.reading with
    | none => simp [refresh_variations, hgs, hr, noLiveWhileOffline]
    | some rr =>
      simp [refresh_variations, hgs, hr, noLiveWhileOffline, liveOffline, h]

/-- A failed fetch leaves the orchestrator offline. -/
theorem refresh_sensor_fail_offline (o : Orchestrator) (env : Env) (now : Int)
    (hf : env.fetch = none) :
    (refresh_sensor o env now).1.cache.is_offline = true := by
  obtain ⟨ov, h1, _⟩ := refresh_sensor_fail_shape o env now hf
  rw [h1]; rfl

/-- A fetch of a source-stale reading leaves the orchestrator offline. -/
theorem refresh_sensor_stale_offline (o : Orchestrator) (env : Env) (now : Int)
    (r : SensorReading) (hf : env.fetch = some r)
    (hst : r.is_stale o.staleThreshold now = true) :
    (refresh_sensor o env now).1.cache.is_offline = true := by
  obtain ⟨ov, h1, _⟩ := refresh_sensor_stale_shape o env now r hf hst
  rw [h1]; rfl

/-- Every live generator call made by `get_cached_data` happens with the
offline flag clear. -/
theorem get_cached_data_noLive (o : Orchestrator) (env : Env) (now : Int) :
    noLiveWhileOffline (get_cached_data o env now).2.2 = true := by
  unfold get_cached_data
  by_cases hst : o.cache.is_sensor_stale now = true
  · simp only [hst, if_true]
    have h1 := refresh_sensor_noLive o env now
    by_cases hoff : (refresh_sensor o env now).1.cache.is_offline = true
    · simp [hoff, h1]
    · have hoff' : (refresh_sensor o env now).1.cache.isOffline = false := by
        simp only [CacheManager.is_offline] at hoff
        simpa using hoff
      simp only [CacheManager.is_offline, hoff', Bool.false_eq_true, if_false]
      cases hr : (refresh_sensor o env now).1.cache.get_ratings with
      | none => simp [h1]
      | some cr =>
        by_cases hreg :
            (refresh_sensor o env now).1.cache.should_regenerate_variations cr now = true
        · have h2 := refresh_variations_noLive (refresh_sensor o env now).1 cr env now hoff'
          simp only [hreg, if_true]
          simp only [noLiveWhileOffline, List.all_append, Bool.and_eq_true] at h1 h2 ⊢
          exact ⟨h1, h2⟩
        · simp [hreg, h1]
  · simp only [hst, if_false]
    by_cases hoff : o.cache.is_offline = true
    · simp [hoff, noLiveWhileOffline]
    · have hoff' : o.cache.isOffline = false := by
        simp only [CacheManager.is_offline] at hoff
        simpa using hoff
      simp only [CacheManager.is_offline, hoff', Bool.false_eq_true, if_false]
      cases hr : o.cache.get_ratings with
      | none => simp [noLiveWhileOffline]
      | some cr =>
        by_cases hreg : o.cache.should_regenerate_variations cr now = true
        · have h2 := refresh_variations_noLive o cr env now hoff'
          simp only [hreg, if_true]
          simp only [noLiveWhileOffline, List.all_append, Bool.and_eq_true] at h2 ⊢
          simpa using h2
        · simp [hreg, noLiveWhileOffline]

/-- Every live generator call made by `get_initial_data` happens with the
offline flag clear. -/
theorem get_initial_data_noLive (o : Orchestrator) (p : String) (env : Env)
    (now : Int) :
    noLiveWhileOffline (get_initial_data o p env now).2.2 = true := by
  unfold get_initial_data
  by_cases hst : o.cache.is_sensor_stale now = true
  · simp only [hst, if_true]
    have h1 := refresh_sensor_noLive o env now
    simp only [noLiveWhileOffline] at h1
    by_cases hoff : (refresh_sensor o env now).1.cache.is_offline = true
    · simp [hoff, noLiveWhileOffline, h1]
    · have hoff' : (refresh_sensor o env now).1.cache.isOffline = false := by
        simp only [CacheManager.is_offline] at hoff
        simpa using hoff
      simp only [CacheManager.is_offline, hoff', Bool.false_eq_true, if_false]
      cases hgs : (refresh_sensor o env now).1.cache.get_sensor now with
      | none => simp [noLiveWhileOffline, h1]
      | some sd =>
        cases hr : sd.reading with
        | none => simp [hr, noLiveWhileOffline, h1]
        | some reading =>
          by_cases hfv :
              (refresh_sensor o env now).1.cache.has_fresh_variations p now = true
          · simp [hr, hfv, noLiveWhileOffline, h1]
          · simp [hr, hfv, noLiveWhileOffline, List.all_append, h1, liveOffline, hoff']
            intro x hx
            have hx' := List.all_eq_true.mp h1 x hx
            simpa using hx'
  · simp only [hst, if_false]
    by_cases hoff : o.cache.is_offline = true
    · simp [hoff, noLiveWhileOffline]
    · have hoff' : o.cache.isOffline = false := by
        simp only [CacheManager.is_offline] at hoff
        simpa using hoff
      simp only [CacheManager.is_offline, hoff', Bool.false_eq_true, if_false]
      cases hgs : o.cache.get_sensor now with
      | none => simp [noLiveWhileOffline]
      | some sd =>
        cases hr : sd.reading with
        | none => simp [hr, noLiveWhileOffline]
        | some reading =>
          by_cases hfv : o.cache.has_fresh_variations p now = true
          · simp [hr, hfv, noLiveWhileOffline]
          · simp [hr, hfv, noLiveWhileOffline, liveOffline, hoff']

/-- Every live generator call made by the background fill happens with the
offline flag clear. -/
theorem refresh_remaining_noLive (o : Orchestrator) (p : String) (m : Mode)
    (env : Env) (now : Int) :
    noLiveWhileOffline (refresh_remaining_variations o p m env now).2 = true := by
  unfold refresh_remaining_variations
  by_cases hoff : o.cache.is_offline = true
  · simp [hoff, noLiveWhileOffline]
  · have hoff' : o.cache.isOffline = false := by
      simp only [CacheManager.is_offline] at hoff
      simpa using hoff
    simp only [CacheManager.is_offline, hoff', Bool.false_eq_true, if_false]
    by_cases hc : o.cache.has_complete_variations now = true
    · simp [hc, noLiveWhileOffline]
    · simp only [hc, Bool.false_eq_true, if_false]
      cases hgs : o.cache.get_sensor now with
      | none => simp [noLiveWhileOffline]
      | some sd =>
        cases hr : sd.reading with
        | none => simp [hr, noLiveWhileOffline]
        | some reading => simp [hr, noLiveWhileOffline, liveOffline, hoff']

/-- When the orchestrator is offline and the fetch of this request cannot
clear the offline state (it fails or yields a source-stale reading),
`get_cached_data` makes no live generator call at all. -/
theorem get_cached_data_noGen_offline (o : Orchestrator) (env : Env) (now : Int)
    (hoff : o.cache.is_offline = true)
    (hnf : match env.fetch with
           | none => True
           | some r => r.is_stale o.staleThreshold now = true) :
    hasLiveGen (get_cached_data o env now).2.2 = false := by
  unfold get_cached_data
  by_cases hst : o.cache.is_sensor_stale now = true
  · simp only [hst, if_true]
    have hoffline1 : (refresh_sensor o env now).1.cache.is_offline = true := by
      cases hf : env.fetch with
      | none => exact refresh_sensor_fail_offline o env now hf
      | some r =>
        have hr : r.is_stale o.staleThreshold now = true := by
          simp only [hf] at hnf
          exact hnf
        exact refresh_sensor_stale_offline o env now r hf hr
    simp [hoffline1, refresh_sensor_noGen]
  · simp only [hst, if_false]
    simp [hoff, hasLiveGen]

/-- Same as `get_cached_data_noGen_offline`, for the fast first-paint path. -/
theorem get_initial_data_noGen_offline (o : Orchestrator) (p : String) (env : Env)
    (now : Int) (hoff : o.cache.is_offline = true)
    (hnf : match env.fetch with
           | none => True
           | some r => r.is_stale o.staleThreshold now = true) :
    hasLiveGen (get_initial_data o p env now).2.2 = false := by
  unfold get_initial_data
  by_cases hst : o.cache.is_sensor_stale now = true
  · simp only [hst, if_true]
    have hoffline1 : (refresh_sensor o env now).1.cache.is_offline = true := by
      cases hf : env.fetch with
      | none => exact refresh_sensor_fail_offline o env now hf
      | some r =>
        have hr : r.is_stale o.staleThreshold now = true := by
          simp only [hf] at hnf
          exact hnf
        exact refresh_sensor_stale_offline o env now r hf hr
    simp [hoffline1, refresh_sensor_noGen]
  · simp only [hst, if_false]
    simp [hoff, hasLiveGen]

/-- Claim C5: whenever the offline flag is set, no request-handling path of
the orchestrator invokes the live text generator.  Every live call recorded
in any trace of `get_cached_data`, `get_initial_data` or
`refresh_remaining_variations` happens with the offline flag clear, and a
request that starts offline and whose fetch cannot clear the offline state
(failure or a source-stale reading) makes zero live calls; hence live
regeneration can resume only after a successful non-stale fetch has cleared
the offline flag (the only way the flag clears, `set_sensor`). -/
theorem C5_offline_blocks_live_generation :
    ∀ (o : Orchestrator) (env : Env) (now : Int) (p : String) (m : Mode),
      noLiveWhileOffline (get_cached_data o env now).2.2 = true
        ∧ noLiveWhileOffline (get_initial_data o p env now).2.2 = true
        ∧ noLiveWhileOffline (refresh_remaining_variations o p m env now).2 = true
        ∧ (o.cache.is_offline = true →
            (match env.fetch with
             | none => True
             | some r => r.is_stale o.staleThreshold now = true) →
            hasLiveGen (get_cached_data o env now).2.2 = false
              ∧ hasLiveGen (get_initial_data o p env now).2.2 = false
              ∧ hasLiveGen (refresh_remaining_variations o p m env now).2 = false) := by
  intro o env now p m
  refine ⟨get_cached_data_noLive o env now, get_initial_data_noLive o p env now,
    refresh_remaining_noLive o p m env now, ?_⟩
  intro hoff hnf
  refine ⟨get_cached_data_noGen_offline o env now hoff hnf,
    get_initial_data_noGen_offline o p env now hoff hnf, ?_⟩
  simp [refresh_remaining_variations, hoff, hasLiveGen]

/-- Witness for C5 at a concrete offline state whose fetch fails: none of
the three request paths makes a live generator call, even though the
generator oracle would return data if asked. -/
theorem C5_offline_blocks_live_generation_witness :
    hasLiveGen
        (get_cached_data ⟨⟨120, 15, none, none, true, none, none⟩, 300⟩
          ⟨none, fun _ => [("drill_sergeant", ["live"])], fun _ _ => ["live"], [],
            fun _ => 5, fun _ => 5⟩ 0).2.2 = false
      ∧ hasLiveGen
          (get_initial_data ⟨⟨120, 15, none, none, true, none, none⟩, 300⟩
            "drill_sergeant"
            ⟨none, fun _ => [("drill_sergeant", ["live"])], fun _ _ => ["live"], [],
              fun _ => 5, fun _ => 5⟩ 0).2.2 = false
      ∧ hasLiveGen
          (refresh_remaining_variations ⟨⟨120, 15, none, none, true, none, none⟩, 300⟩
            "drill_sergeant" Mode.sup
            ⟨none, fun _ => [("drill_sergeant", ["live"])], fun _ _ => ["live"], [],
              fun _ => 5, fun _ => 5⟩ 0).2 = false :=
  (C5_offline_blocks_live_generation ⟨⟨120, 15, none, none, true, none, none⟩, 300⟩
    ⟨none, fun _ => [("drill_sergeant", ["live"])], fun _ _ => ["live"], [],
      fun _ => 5, fun _ => 5⟩ 0 "drill_sergeant" Mode.sup).2.2.2 rfl trivial
